import Mathlib

/-!
Verification of the handy-ml repository.

The core under verification is `scripts/optimize_satisfy_early_stopping.py`:
a stopping monitor (`OptimizeSatisfyEarlyStopping`) holding one piece of
mutable state, `best_dict`, initially the empty dictionary `{}`, with one
operation `evaluate_criteria`.  Scoring functions are caller-supplied and may
raise; we embed them as partial functions `Snapshot → Option ℚ` (a `none`
result models a raised exception).  `evaluate_criteria` is embedded as a
function returning the decision (`Option Bool`, `none` when a scoring
function raised and the exception propagated) together with the monitor
state after the call; the state is mutated only at the single assignment
`self.best_dict = score_dict` of the source, which runs after all scoring
computations of the call.

The file also embeds `scripts/prediction_confidence.py`
(`binary_classification_confidence`), a pure element-wise transform on
probability lists, with probabilities modelled as rationals.
-/

/-- A metric snapshot: a Python dict from metric name to numeric score,
modelled as an association list.  The only dict operation the monitor itself
performs is the comparison `best_dict == {}`, which holds exactly for the
empty list. -/
abbrev Snapshot := List (String × ℚ)

/-- Embedding of class `OptimizeSatisfyEarlyStopping`: the optimize metric,
the satisfy metrics (dict from scoring function to threshold, kept in
insertion order), and the mutable `best_dict`. -/
structure OptimizeSatisfyEarlyStopping where
  optimize_metric : Snapshot → Option ℚ
  satisfy_metrics : List ((Snapshot → Option ℚ) × ℚ)
  best_dict : Snapshot

namespace OptimizeSatisfyEarlyStopping

/-- Embedding of `__init__`: `satisfy_metrics` defaults to `{}` when the
caller passes `None`; `best_dict` starts as `{}`. -/
def mk_monitor (optimize_metric : Snapshot → Option ℚ)
    (satisfy_metrics : Option (List ((Snapshot → Option ℚ) × ℚ))) :
    OptimizeSatisfyEarlyStopping :=
  { optimize_metric := optimize_metric
    satisfy_metrics := satisfy_metrics.getD []
    best_dict := [] }

/-- Embedding of `_metric_decreases`: `False` when `best_dict == {}`,
otherwise strict comparison of the optimize metric on the current snapshot
against the one on `best_dict`; `none` when either application raises. -/
def metric_decreases (m : OptimizeSatisfyEarlyStopping) (score_dict : Snapshot) :
    Option Bool :=
  if m.best_dict = [] then some false
  else do
    let c ← m.optimize_metric score_dict
    let b ← m.optimize_metric m.best_dict
    pure (decide (c < b))

/-- Embedding of the generator consumed by `all(...)` in `_metrics_satisfied`:
each satisfy metric is applied to `best_dict` in order, short-circuiting at
the first unsatisfied threshold; a raised exception (`none`) propagates. -/
def all_satisfied : List ((Snapshot → Option ℚ) × ℚ) → Snapshot → Option Bool
  | [], _ => some true
  | (f, v) :: rest, best => do
    let s ← f best
    if v ≤ s then all_satisfied rest best else pure false

/-- Embedding of `_metrics_satisfied`. -/
def metrics_satisfied (m : OptimizeSatisfyEarlyStopping) : Option Bool :=
  all_satisfied m.satisfy_metrics m.best_dict

/-- Embedding of `evaluate_criteria`.  The Python `and` short-circuits:
`_metrics_satisfied` is only evaluated when `_metric_decreases` returned
`True`.  On `True` the method returns with `best_dict` untouched; otherwise
the single assignment `self.best_dict = score_dict` runs and `False` is
returned.  A raised exception leaves the state untouched because the
assignment comes after both checks. -/
def evaluate_criteria (m : OptimizeSatisfyEarlyStopping) (score_dict : Snapshot) :
    Option Bool × OptimizeSatisfyEarlyStopping :=
  match m.metric_decreases score_dict with
  | none => (none, m)
  | some d =>
    if d then
      match m.metrics_satisfied with
      | none => (none, m)
      | some sat =>
        if sat then (some true, m)
        else (some false, { m with best_dict := score_dict })
    else (some false, { m with best_dict := score_dict })

/-- Driving the monitor through a list of snapshots, collecting each call's
decision and the final monitor state. -/
def run : OptimizeSatisfyEarlyStopping → List Snapshot →
    List (Option Bool) × OptimizeSatisfyEarlyStopping
  | m, [] => ([], m)
  | m, s :: rest =>
    let step := evaluate_criteria m s
    let next := run step.2 rest
    (step.1 :: next.1, next.2)

lemma metric_decreases_of_nil {m : OptimizeSatisfyEarlyStopping}
    (h : m.best_dict = []) (s : Snapshot) :
    m.metric_decreases s = some false := by
  simp [metric_decreases, h]

lemma metric_decreases_of_ne {m : OptimizeSatisfyEarlyStopping} {s : Snapshot}
    {oc ob : ℚ} (hne : m.best_dict ≠ [])
    (hc : m.optimize_metric s = some oc)
    (hb : m.optimize_metric m.best_dict = some ob) :
    m.metric_decreases s = some (decide (oc < ob)) := by
  simp [metric_decreases, hne, hc, hb]

lemma all_satisfied_of_forall {sat : List ((Snapshot → Option ℚ) × ℚ)}
    {best : Snapshot}
    (h : ∀ fv ∈ sat, ∃ s, fv.1 best = some s ∧ fv.2 ≤ s) :
    all_satisfied sat best = some true := by
  induction sat with
  | nil => rfl
  | cons fv rest ih =>
    obtain ⟨f, v⟩ := fv
    obtain ⟨s, hfs0, hvs0⟩ := h (f, v) (List.mem_cons_self _ _)
    replace hfs0 : f best = some s := hfs0
    replace hvs0 : v ≤ s := hvs0
    simp only [all_satisfied, hfs0, Option.bind_eq_bind, Option.some_bind]
    rw [if_pos hvs0]
    exact ih fun fv hm => h fv (List.mem_cons_of_mem _ hm)

lemma all_satisfied_ne_none {sat : List ((Snapshot → Option ℚ) × ℚ)}
    {best : Snapshot}
    (h : ∀ fv ∈ sat, ∃ s, fv.1 best = some s) :
    all_satisfied sat best ≠ none := by
  induction sat with
  | nil => simp [all_satisfied]
  | cons fv rest ih =>
    obtain ⟨f, v⟩ := fv
    obtain ⟨s, hfs0⟩ := h (f, v) (List.mem_cons_self _ _)
    replace hfs0 : f best = some s := hfs0
    simp only [all_satisfied, hfs0, Option.bind_eq_bind, Option.some_bind]
    by_cases hvs : v ≤ s
    · rw [if_pos hvs]
      exact ih fun fv hm => h fv (List.mem_cons_of_mem _ hm)
    · rw [if_neg hvs]
      simp

lemma all_satisfied_eq_true_iff {sat : List ((Snapshot → Option ℚ) × ℚ)}
    {best : Snapshot}
    (h : ∀ fv ∈ sat, ∃ s, fv.1 best = some s) :
    all_satisfied sat best = some true ↔
      ∀ fv ∈ sat, ∀ s, fv.1 best = some s → fv.2 ≤ s := by
  induction sat with
  | nil => simp [all_satisfied]
  | cons fv rest ih =>
    obtain ⟨f, v⟩ := fv
    obtain ⟨s, hfs⟩ := h (f, v) (List.mem_cons_self _ _)
    replace hfs : f best = some s := hfs
    simp only [all_satisfied, hfs, Option.bind_eq_bind, Option.some_bind]
    by_cases hvs : v ≤ s
    · rw [if_pos hvs]
      rw [ih fun fv hm => h fv (List.mem_cons_of_mem _ hm)]
      constructor
      · rintro hrest fv hm s2 hfs2
        rcases List.mem_cons.mp hm with heq | hm
        · subst heq
          replace hfs2 : f best = some s2 := hfs2
          rw [hfs2] at hfs
          injection hfs with hss
          exact le_of_le_of_eq hvs hss.symm
        · exact hrest fv hm s2 hfs2
      · intro hall fv hm s2 hfs2
        exact hall fv (List.mem_cons_of_mem _ hm) s2 hfs2
    · rw [if_neg hvs]
      constructor
      · intro hfalse
        cases hfalse
      · intro hall
        exact absurd (hall (f, v) (List.mem_cons_self _ _) s hfs) hvs

lemma evaluate_of_dec_false {m : OptimizeSatisfyEarlyStopping} {s : Snapshot}
    (h : m.metric_decreases s = some false) :
    m.evaluate_criteria s = (some false, { m with best_dict := s }) := by
  simp [evaluate_criteria, h]

lemma evaluate_of_dec_none {m : OptimizeSatisfyEarlyStopping} {s : Snapshot}
    (h : m.metric_decreases s = none) :
    m.evaluate_criteria s = (none, m) := by
  simp [evaluate_criteria, h]

lemma evaluate_of_dec_sat {m : OptimizeSatisfyEarlyStopping} {s : Snapshot}
    (hd : m.metric_decreases s = some true)
    (hs : m.metrics_satisfied = some true) :
    m.evaluate_criteria s = (some true, m) := by
  simp [evaluate_criteria, hd, hs]

lemma evaluate_of_dec_unsat {m : OptimizeSatisfyEarlyStopping} {s : Snapshot}
    (hd : m.metric_decreases s = some true)
    (hs : m.metrics_satisfied = some false) :
    m.evaluate_criteria s = (some false, { m with best_dict := s }) := by
  simp [evaluate_criteria, hd, hs]

lemma evaluate_of_sat_none {m : OptimizeSatisfyEarlyStopping} {s : Snapshot}
    (hd : m.metric_decreases s = some true)
    (hs : m.metrics_satisfied = none) :
    m.evaluate_criteria s = (none, m) := by
  simp [evaluate_criteria, hd, hs]

/-- Inversion: a call that returned `True` left the state unchanged and both
checks came out `True`. -/
lemma stop_inversion {m m' : OptimizeSatisfyEarlyStopping} {s : Snapshot}
    (h : m.evaluate_criteria s = (some true, m')) :
    m' = m ∧ m.metric_decreases s = some true ∧ m.metrics_satisfied = some true := by
  cases hd : m.metric_decreases s with
  | none => rw [evaluate_of_dec_none hd] at h; cases h
  | some d =>
    cases d with
    | false => rw [evaluate_of_dec_false hd] at h; cases h
    | true =>
      cases hs : m.metrics_satisfied with
      | none => rw [evaluate_of_sat_none hd hs] at h; cases h
      | some t =>
        cases t with
        | false => rw [evaluate_of_dec_unsat hd hs] at h; cases h
        | true =>
          rw [evaluate_of_dec_sat hd hs] at h
          injection h with h1 h2
          exact ⟨h2.symm, rfl, rfl⟩

/-- Invariant lemma behind the never-stop property: starting from any
baseline that is either the sentinel `{}` or strictly below the first
snapshot in optimize value, a chain of snapshots with strictly increasing
optimize values yields `False` on every call. -/
lemma run_no_stop (opt : Snapshot → Option ℚ)
    (sat : List ((Snapshot → Option ℚ) × ℚ)) :
    ∀ (ss : List Snapshot) (best : Snapshot),
      List.Chain' (fun a b => ∃ x y, opt a = some x ∧ opt b = some y ∧ x < y) ss →
      (best = [] ∨ ∀ h ∈ ss.head?, ∃ x y, opt best = some x ∧ opt h = some y ∧ x < y) →
      (run ⟨opt, sat, best⟩ ss).1 = ss.map (fun _ => some false) := by
  intro ss
  induction ss with
  | nil => intro best hc hb; rfl
  | cons s rest ih =>
    intro best hc hb
    obtain ⟨hhead, htail⟩ := List.chain'_cons'.mp hc
    have hev : evaluate_criteria ⟨opt, sat, best⟩ s = (some false, ⟨opt, sat, s⟩) := by
      by_cases hbest : best = []
      · exact evaluate_of_dec_false (metric_decreases_of_nil hbest s)
      · rcases hb with hnil | hlt
        · exact absurd hnil hbest
        · obtain ⟨x, y, hx, hy, hxy⟩ := hlt s rfl
          have hmd : metric_decreases ⟨opt, sat, best⟩ s = some false := by
            rw [metric_decreases_of_ne hbest hy hx, decide_eq_false (not_lt.mpr hxy.le)]
          exact evaluate_of_dec_false hmd
    simp only [run, hev, List.map_cons]
    exact congrArg (some false :: ·) (ih s htail (Or.inr hhead))

end OptimizeSatisfyEarlyStopping

/-- Embedding of `binary_classification_confidence` from
`scripts/prediction_confidence.py`: probabilities modelled as rationals,
each element mapped through `2 * p - 1` when `p >= 0.5` and `1 - 2 * p`
otherwise. -/
def binary_classification_confidence (probabilities : List ℚ) : List ℚ :=
  probabilities.map (fun p => if (1 : ℚ)/2 ≤ p then 2 * p - 1 else 1 - 2 * p)

/-- The element-wise lambda inside `binary_classification_confidence`,
given a name so that per-element properties can be stated. -/
def confidence (p : ℚ) : ℚ := if (1 : ℚ)/2 ≤ p then 2 * p - 1 else 1 - 2 * p

lemma binary_classification_confidence_eq_map (ps : List ℚ) :
    binary_classification_confidence ps = ps.map confidence := rfl

lemma confidence_eq_two_mul_abs (p : ℚ) : confidence p = 2 * |p - 1/2| := by
  unfold confidence
  rcases le_or_lt ((1 : ℚ)/2) p with h | h
  · rw [if_pos h, abs_of_nonneg (by linarith)]
    ring
  · rw [if_neg (not_le.mpr h), abs_of_neg (by linarith)]
    ring

/-- Scoring function used in concrete scenarios: `0` on the empty snapshot
and `1` on any other snapshot. -/
def flag_score : Snapshot → Option ℚ := fun s => if s = [] then some 0 else some 1

/-- Scoring function used in concrete scenarios: `1` on the empty snapshot
and `0` on any other snapshot, so the empty snapshot scores strictly
higher. -/
def anti_score : Snapshot → Option ℚ := fun s => if s = [] then some 1 else some 0

/-- A scoring function that raises on every snapshot. -/
def fail_score : Snapshot → Option ℚ := fun _ => none

/-- Concrete monitor holding baseline `{"a": 0}` with one satisfy metric at
threshold `1`. -/
def mC1 : OptimizeSatisfyEarlyStopping := ⟨flag_score, [(flag_score, 1)], [("a", 0)]⟩

/-- Concrete monitor holding baseline `{"b": 0}` with no satisfy metrics. -/
def mC3 : OptimizeSatisfyEarlyStopping := ⟨flag_score, [], [("b", 0)]⟩

/-- Concrete monitor holding baseline `{"c": 5}` with no satisfy metrics. -/
def mC8 : OptimizeSatisfyEarlyStopping := ⟨flag_score, [], [("c", 5)]⟩

open OptimizeSatisfyEarlyStopping

/-- C1: for every monitor holding a baseline (nonempty `best_dict`) whose
scoring applications for the call all succeed, `evaluate_criteria` returns
stop (`True`) iff the optimize value of the current snapshot is strictly
below the baseline's and every satisfy metric applied to the baseline meets
its threshold; on stop the state is unchanged, and in every other case the
baseline is overwritten with the current snapshot and `False` is
returned. -/
theorem C1_stop_iff_regression_and_satisfied
    (m : OptimizeSatisfyEarlyStopping) (cur : Snapshot) (oc ob : ℚ)
    (hne : m.best_dict ≠ [])
    (hc : m.optimize_metric cur = some oc)
    (hb : m.optimize_metric m.best_dict = some ob)
    (hs : ∀ fv ∈ m.satisfy_metrics, ∃ s, fv.1 m.best_dict = some s) :
    (m.evaluate_criteria cur = (some true, m) ↔
      (oc < ob ∧ ∀ fv ∈ m.satisfy_metrics, ∀ s, fv.1 m.best_dict = some s → fv.2 ≤ s)) ∧
    (¬ (oc < ob ∧ ∀ fv ∈ m.satisfy_metrics, ∀ s, fv.1 m.best_dict = some s → fv.2 ≤ s) →
      m.evaluate_criteria cur = (some false, { m with best_dict := cur })) := by
  have hmd := metric_decreases_of_ne hne hc hb
  constructor
  · constructor
    · intro h
      obtain ⟨hmm, hd, hsat⟩ := stop_inversion h
      rw [hmd] at hd
      injection hd with hd
      exact ⟨of_decide_eq_true hd, (all_satisfied_eq_true_iff hs).mp hsat⟩
    · rintro ⟨hlt, hall⟩
      refine evaluate_of_dec_sat ?_ ((all_satisfied_eq_true_iff hs).mpr hall)
      rw [hmd, decide_eq_true hlt]
  · intro hnot
    by_cases hlt : oc < ob
    · have hall := fun hall => hnot ⟨hlt, hall⟩
      have hd : m.metric_decreases cur = some true := by rw [hmd, decide_eq_true hlt]
      cases hsat : m.metrics_satisfied with
      | none => exact absurd hsat (all_satisfied_ne_none hs)
      | some t =>
        cases t with
        | true => exact absurd ((all_satisfied_eq_true_iff hs).mp hsat) hall
        | false => exact evaluate_of_dec_unsat hd hsat
    · exact evaluate_of_dec_false (by rw [hmd, decide_eq_false hlt])

/-- Witness for C1 on a concrete monitor: baseline `{"a": 0}` scores `1`,
the current (empty) snapshot scores `0`, the one satisfy metric meets its
threshold on the baseline, so the call stops with the state unchanged. -/
theorem C1_witness : evaluate_criteria mC1 [] = (some true, mC1) :=
  (C1_stop_iff_regression_and_satisfied mC1 [] 0 1 (by decide) rfl (by decide)
      (by
        intro fv hm
        rw [show mC1.satisfy_metrics = [(flag_score, 1)] from rfl] at hm
        rcases List.mem_singleton.mp hm with rfl
        exact ⟨1, by decide⟩)).1.mpr
    ⟨by norm_num, by
      intro fv hm s hfs
      rw [show mC1.satisfy_metrics = [(flag_score, 1)] from rfl] at hm
      rcases List.mem_singleton.mp hm with rfl
      replace hfs : flag_score mC1.best_dict = some s := hfs
      rw [(by decide : flag_score mC1.best_dict = some 1)] at hfs
      injection hfs with hfs
      exact le_of_eq hfs⟩

/-- C2: the first call on a freshly constructed monitor returns `False`
(do not stop) and stores the input snapshot as the new baseline, for every
snapshot and every choice of optimize function and satisfy set, including
functions that raise on that snapshot. -/
theorem C2_first_call_returns_false (opt : Snapshot → Option ℚ)
    (sat : Option (List ((Snapshot → Option ℚ) × ℚ))) (s : Snapshot) :
    evaluate_criteria (mk_monitor opt sat) s =
      (some false, { mk_monitor opt sat with best_dict := s }) :=
  evaluate_of_dec_false (metric_decreases_of_nil rfl s)

/-- C3: a call that returned stop left the baseline unchanged, and calling
again with any snapshot whose optimize value is again strictly below the
frozen baseline's returns stop again with no state change. -/
theorem C3_stop_frame_idempotent
    (m m' : OptimizeSatisfyEarlyStopping) (s s2 : Snapshot) (oc2 ob : ℚ)
    (h1 : m.evaluate_criteria s = (some true, m'))
    (hc : m.optimize_metric s2 = some oc2)
    (hb : m.optimize_metric m.best_dict = some ob)
    (hlt : oc2 < ob) :
    m' = m ∧ m'.evaluate_criteria s2 = (some true, m') := by
  obtain ⟨hmm, hd, hsat⟩ := stop_inversion h1
  have hne : m.best_dict ≠ [] := by
    intro hnil
    rw [metric_decreases_of_nil hnil] at hd
    cases hd
  have hd2 : m.metric_decreases s2 = some true := by
    rw [metric_decreases_of_ne hne hc hb, decide_eq_true hlt]
  refine ⟨hmm, ?_⟩
  rw [hmm]
  exact evaluate_of_dec_sat hd2 hsat

/-- Witness for C3: the concrete monitor `mC3` stops on the empty snapshot
and stops again, unchanged, when called once more with it. -/
theorem C3_witness : mC3 = mC3 ∧ mC3.evaluate_criteria [] = (some true, mC3) :=
  C3_stop_frame_idempotent mC3 mC3 [] [] 0 1 rfl rfl (by decide) (by norm_num)

/-- C4 is refuted at the empty snapshot: the code represents "no baseline"
as the empty dict, so after a first call with the empty snapshot the monitor
is back in the no-baseline state.  Here `anti_score` scores the held
baseline `{}` as `1` and the second snapshot as `0`, a strict regression
with a vacuous satisfy set, yet the second call takes the no-baseline
branch: it returns `False` and overwrites the baseline instead of
evaluating the regression comparison. -/
theorem C4_counterexample :
    evaluate_criteria (mk_monitor anti_score none) [] =
      (some false, ⟨anti_score, [], []⟩) ∧
    anti_score [("a", 0)] = some 0 ∧ anti_score [] = some 1 ∧ ((0 : ℚ) < 1) ∧
    evaluate_criteria ⟨anti_score, [], []⟩ [("a", 0)] =
      (some false, ⟨anti_score, [], [("a", 0)]⟩) ∧
    (evaluate_criteria ⟨anti_score, [], []⟩ [("a", 0)]).1 ≠ some true :=
  ⟨rfl, by decide, rfl, by norm_num, rfl, by decide⟩

/-- C4 amended: for every nonempty snapshot passed to the first call, the
monitor moves to a held-baseline state (nonempty `best_dict`), and on every
call made with a nonempty stored baseline the regression check is the
comparison of the optimize values of the current snapshot and the held
baseline, not the no-baseline branch. -/
theorem C4_amended_nonempty_baseline (opt : Snapshot → Option ℚ)
    (sat : Option (List ((Snapshot → Option ℚ) × ℚ)))
    (s0 : Snapshot) (h0 : s0 ≠ []) :
    (evaluate_criteria (mk_monitor opt sat) s0 =
        (some false, ⟨opt, sat.getD [], s0⟩) ∧
      (⟨opt, sat.getD [], s0⟩ : OptimizeSatisfyEarlyStopping).best_dict ≠ []) ∧
    (∀ (m : OptimizeSatisfyEarlyStopping) (s : Snapshot), m.best_dict ≠ [] →
      m.metric_decreases s =
        (m.optimize_metric s).bind fun c =>
          (m.optimize_metric m.best_dict).bind fun b => some (decide (c < b))) := by
  refine ⟨⟨evaluate_of_dec_false (metric_decreases_of_nil rfl s0), h0⟩, ?_⟩
  intro m s hne
  unfold metric_decreases
  rw [if_neg hne]
  rfl

/-- Witness for the amended C4 at a concrete nonempty first snapshot. -/
theorem C4_amended_witness :
    evaluate_criteria (mk_monitor flag_score none) [("a", 0)] =
      (some false, ⟨flag_score, [], [("a", 0)]⟩) :=
  ((C4_amended_nonempty_baseline flag_score none [("a", 0)] (by decide)).1).1

/-- C5: a raised scoring function makes the whole call fail and the failure
leaves the monitor state exactly as it was: whenever the call's decision is
`none` the returned state equals the input state; with a baseline held, a
raising optimize function propagates; and when regression held and the
satisfy evaluation raises, that failure propagates as well. -/
theorem C5_failure_leaves_state (m : OptimizeSatisfyEarlyStopping) (s : Snapshot) :
    ((m.evaluate_criteria s).1 = none → (m.evaluate_criteria s).2 = m) ∧
    (m.best_dict ≠ [] → m.optimize_metric s = none →
      m.evaluate_criteria s = (none, m)) ∧
    (∀ oc ob, m.best_dict ≠ [] → m.optimize_metric s = some oc →
      m.optimize_metric m.best_dict = some ob → oc < ob →
      m.metrics_satisfied = none → m.evaluate_criteria s = (none, m)) := by
  refine ⟨?_, ?_, ?_⟩
  · intro h
    cases hd : m.metric_decreases s with
    | none => rw [evaluate_of_dec_none hd]
    | some d =>
      cases d with
      | false => rw [evaluate_of_dec_false hd] at h ⊢; simp at h
      | true =>
        cases hsat : m.metrics_satisfied with
        | none => rw [evaluate_of_sat_none hd hsat]
        | some t =>
          cases t with
          | true => rw [evaluate_of_dec_sat hd hsat] at h; simp at h
          | false => rw [evaluate_of_dec_unsat hd hsat] at h; simp at h
  · intro hne hcnone
    have hd : m.metric_decreases s = none := by
      simp [metric_decreases, hne, hcnone]
    exact evaluate_of_dec_none hd
  · intro oc ob hne hc hb hlt hsatnone
    refine evaluate_of_sat_none ?_ hsatnone
    rw [metric_decreases_of_ne hne hc hb, decide_eq_true hlt]

/-- Witness for C5: a monitor holding baseline `{"c": 0}` whose optimize
function raises on every snapshot fails the call and keeps its state. -/
theorem C5_witness :
    evaluate_criteria ⟨fail_score, [], [("c", 0)]⟩ [] =
      (none, ⟨fail_score, [], [("c", 0)]⟩) :=
  (C5_failure_leaves_state ⟨fail_score, [], [("c", 0)]⟩ []).2.1 (by decide) rfl

/-- C6 is refuted when snapshot A is the empty snapshot: `anti_score` gives
`optimize(B) = 0 < 1 = optimize(A)` and the satisfy set is empty, so the
claim demands "do not stop" then "stop", yet the second call returns
`False` because the retained empty baseline is the code's no-baseline
sentinel. -/
theorem C6_counterexample :
    anti_score [] = some 1 ∧ anti_score [("b", 1)] = some 0 ∧ ((0 : ℚ) < 1) ∧
    evaluate_criteria (mk_monitor anti_score (some [])) [] =
      (some false, ⟨anti_score, [], []⟩) ∧
    evaluate_criteria ⟨anti_score, [], []⟩ [("b", 1)] =
      (some false, ⟨anti_score, [], [("b", 1)]⟩) ∧
    (evaluate_criteria ⟨anti_score, [], []⟩ [("b", 1)]).1 ≠ some true :=
  ⟨rfl, by decide, by norm_num, rfl, rfl, by decide⟩

/-- C6 amended: for every pair of snapshots A and B with A nonempty,
`optimize(B) < optimize(A)` and every satisfy pair satisfied by A, a fresh
monitor returns `False` on A (retaining A) and then `True` on B (keeping
A as the frozen baseline). -/
theorem C6_two_step_stop (opt : Snapshot → Option ℚ)
    (sat : Option (List ((Snapshot → Option ℚ) × ℚ)))
    (A B : Snapshot) (a b : ℚ)
    (hA : A ≠ [])
    (ha : opt A = some a) (hb : opt B = some b) (hba : b < a)
    (hs : ∀ fv ∈ sat.getD [], ∃ s, fv.1 A = some s ∧ fv.2 ≤ s) :
    evaluate_criteria (mk_monitor opt sat) A =
      (some false, ⟨opt, sat.getD [], A⟩) ∧
    evaluate_criteria ⟨opt, sat.getD [], A⟩ B =
      (some true, ⟨opt, sat.getD [], A⟩) := by
  constructor
  · exact evaluate_of_dec_false (metric_decreases_of_nil rfl A)
  · have hd : metric_decreases ⟨opt, sat.getD [], A⟩ B = some true := by
      rw [metric_decreases_of_ne hA hb ha, decide_eq_true hba]
    exact evaluate_of_dec_sat hd (all_satisfied_of_forall hs)

/-- Witness for the amended C6: A = `{"a": 0}` scoring `1` and satisfying
the single threshold `1`, B the empty snapshot scoring `0`. -/
theorem C6_witness :
    evaluate_criteria (mk_monitor flag_score (some [(flag_score, 1)])) [("a", 0)] =
      (some false, ⟨flag_score, [(flag_score, 1)], [("a", 0)]⟩) ∧
    evaluate_criteria ⟨flag_score, [(flag_score, 1)], [("a", 0)]⟩ [] =
      (some true, ⟨flag_score, [(flag_score, 1)], [("a", 0)]⟩) :=
  C6_two_step_stop flag_score (some [(flag_score, 1)]) [("a", 0)] [] 1 0
    (by decide) (by decide) rfl (by norm_num)
    (by
      intro fv hm
      rcases List.mem_singleton.mp hm with rfl
      exact ⟨1, by decide, le_refl 1⟩)

/-- C7: on a fresh monitor, a finite sequence of snapshots whose optimize
values are strictly increasing never produces a stop: every call returns
`False`, for every satisfy set. -/
theorem C7_increasing_never_stops (opt : Snapshot → Option ℚ)
    (sat : Option (List ((Snapshot → Option ℚ) × ℚ))) (ss : List Snapshot)
    (hchain : List.Chain'
      (fun x y => ∃ vx vy, opt x = some vx ∧ opt y = some vy ∧ vx < vy) ss) :
    (run (mk_monitor opt sat) ss).1 = ss.map (fun _ => some false) :=
  run_no_stop opt (sat.getD []) ss [] hchain (Or.inl rfl)

/-- Witness for C7: two snapshots scoring `0` then `1`. -/
theorem C7_witness :
    (run (mk_monitor flag_score none) [[], [("a", 0)]]).1 =
      [some false, some false] :=
  C7_increasing_never_stops flag_score none [[], [("a", 0)]]
    (List.chain'_cons.mpr
      ⟨⟨0, 1, rfl, by decide, by norm_num⟩, List.chain'_singleton _⟩)

/-- C8: with an empty satisfy set the all-satisfied check is `True`, and for
a monitor holding a baseline the call stops exactly when the current
optimize value is strictly below the baseline's. -/
theorem C8_empty_satisfy_reduces_to_regression
    (m : OptimizeSatisfyEarlyStopping) (cur : Snapshot) (oc ob : ℚ)
    (hsat : m.satisfy_metrics = [])
    (hne : m.best_dict ≠ [])
    (hc : m.optimize_metric cur = some oc)
    (hb : m.optimize_metric m.best_dict = some ob) :
    m.metrics_satisfied = some true ∧
    ((m.evaluate_criteria cur).1 = some true ↔ oc < ob) := by
  have hms : m.metrics_satisfied = some true := by
    unfold metrics_satisfied
    rw [hsat]
    rfl
  refine ⟨hms, ?_⟩
  have hmd := metric_decreases_of_ne hne hc hb
  by_cases hlt : oc < ob
  · rw [evaluate_of_dec_sat (by rw [hmd, decide_eq_true hlt]) hms]
    simp [hlt]
  · rw [evaluate_of_dec_false (by rw [hmd, decide_eq_false hlt])]
    simp [hlt]

/-- Witness for C8 on the concrete monitor `mC8` and the empty current
snapshot. -/
theorem C8_witness :
    metrics_satisfied mC8 = some true ∧
    ((evaluate_criteria mC8 []).1 = some true ↔ (0 : ℚ) < 1) :=
  C8_empty_satisfy_reduces_to_regression mC8 [] 0 1 rfl (by decide) rfl (by decide)

/-- C9: the satisfy metrics are consulted only after the regression check
came out `True`, and with the stored baseline equal to the empty dict
(including on a fresh monitor) neither the optimize metric nor any satisfy
metric is invoked: the call returns `False` and retains the snapshot even
when every supplied function raises on every input, and likewise whenever
the optimize values show no regression. -/
theorem C9_satisfy_only_after_regression (opt : Snapshot → Option ℚ)
    (sat : List ((Snapshot → Option ℚ) × ℚ)) (best s : Snapshot) :
    (best = [] →
      evaluate_criteria ⟨opt, sat, best⟩ s = (some false, ⟨opt, sat, s⟩)) ∧
    (∀ oc ob, opt s = some oc → opt best = some ob → ¬ oc < ob →
      evaluate_criteria ⟨opt, sat, best⟩ s = (some false, ⟨opt, sat, s⟩)) := by
  constructor
  · intro hnil
    exact evaluate_of_dec_false (metric_decreases_of_nil hnil s)
  · intro oc ob hc hb hnlt
    by_cases hnil : best = []
    · exact evaluate_of_dec_false (metric_decreases_of_nil hnil s)
    · exact evaluate_of_dec_false
        (by rw [metric_decreases_of_ne hnil hc hb, decide_eq_false hnlt])

/-- Witness for C9: every supplied function raises everywhere, the baseline
is the empty dict, and the call still returns `False` without surfacing any
failure. -/
theorem C9_witness :
    evaluate_criteria ⟨fail_score, [(fail_score, 0)], []⟩ [("a", 1)] =
      (some false, ⟨fail_score, [(fail_score, 0)], [("a", 1)]⟩) :=
  (C9_satisfy_only_after_regression fail_score [(fail_score, 0)] [] [("a", 1)]).1 rfl

/-- C10: `binary_classification_confidence` maps each probability
independently through the confidence formula; the formula is symmetric
around the `0.5` threshold (`p` and `1 - p` receive the same confidence),
equals `2p - 1` when `p >= 0.5` and `1 - 2p` otherwise, and grows as `p`
moves away from `0.5` toward `0` or `1`. -/
theorem C10_confidence_symmetric :
    (∀ (ps : List ℚ) (i : ℕ),
      (binary_classification_confidence ps)[i]? = ps[i]?.map confidence) ∧
    (∀ p : ℚ, confidence (1 - p) = confidence p) ∧
    (∀ p : ℚ, (1 : ℚ)/2 ≤ p → confidence p = 2 * p - 1) ∧
    (∀ p : ℚ, p < (1 : ℚ)/2 → confidence p = 1 - 2 * p) ∧
    (∀ p q : ℚ, |p - 1/2| ≤ |q - 1/2| → confidence p ≤ confidence q) := by
  refine ⟨?_, ?_, ?_, ?_, ?_⟩
  · intro ps i
    rw [binary_classification_confidence_eq_map, List.getElem?_map]
  · intro p
    rw [confidence_eq_two_mul_abs, confidence_eq_two_mul_abs]
    congr 1
    rw [show (1 : ℚ) - p - 1/2 = -(p - 1/2) by ring, abs_neg]
  · intro p h
    exact if_pos h
  · intro p h
    exact if_neg (not_le.mpr h)
  · intro p q h
    rw [confidence_eq_two_mul_abs, confidence_eq_two_mul_abs]
    linarith

/-- Witness for C10 at `p = 3/4`: the confidence is `2 * (3/4) - 1` and
agrees with the confidence at `1 - 3/4`. -/
theorem C10_witness :
    confidence ((3 : ℚ)/4) = 2 * ((3 : ℚ)/4) - 1 ∧
    confidence (1 - (3 : ℚ)/4) = confidence ((3 : ℚ)/4) :=
  ⟨C10_confidence_symmetric.2.2.1 ((3 : ℚ)/4) (by norm_num),
   C10_confidence_symmetric.2.1 ((3 : ℚ)/4)⟩
